import Mathlib

/-!
Verification of the semantic-recording content script of workflow-use.

The definitions below are a shallow embedding of the recorder content script
(`src/unnamed/part_003`) and of the persisted step format
(`src/extension/src/lib/workflow-types.ts`).  DOM elements are modelled by a
record of exactly the fields the script dereferences (tag name, `type`, `id`,
`value`, attribute map, text content, ancestor chain, sibling texts), and the
document by the lookup tables the script queries (`label[for=...]`,
`getElementById`, all `input[type=radio]` elements in document order).
JavaScript string semantics (`||` on strings, `trim`, `includes`, `replace`
with first-occurrence semantics, `slice`) are modelled by executable helpers
on the character list of a `String`.
-/

/-! ## JavaScript string primitives -/

/-- JS whitespace test used by `String.prototype.trim` (ASCII part). -/
def jsIsSpace (c : Char) : Bool :=
  c == ' ' || c == '\t' || c == '\n' || c == '\r' || c == '\x0b' || c == '\x0c'

/-- JS `String.prototype.trim`: drop leading and trailing whitespace. -/
def jsTrim (s : String) : String :=
  String.mk (((s.data.dropWhile jsIsSpace).reverse.dropWhile jsIsSpace).reverse)

/-- JS `String.prototype.toLowerCase` (ASCII; all strings compared here are ASCII). -/
def jsToLower (s : String) : String :=
  String.mk (s.data.map Char.toLower)

/-- JS `String.prototype.length` (code units; all inputs here are ASCII). -/
def strLen (s : String) : Nat := s.data.length

/-- JS `String.prototype.slice(0, n)`. -/
def strTake (s : String) (n : Nat) : String := String.mk (s.data.take n)

/-- JS `a || b` on strings: first operand if non-empty, else second. -/
def jsOr (a b : String) : String := if a = "" then b else a

/-- Helper for `jsIncludes`: is `needle` a prefix of the character list. -/
def hasPrefixL : List Char → List Char → Bool
  | [], _ => true
  | _ :: _, [] => false
  | a :: as, b :: bs => a == b && hasPrefixL as bs

/-- Helper for `jsIncludes`: does `needle` occur anywhere in the character list. -/
def hasInfixL (needle : List Char) : List Char → Bool
  | [] => hasPrefixL needle []
  | b :: bs => hasPrefixL needle (b :: bs) || hasInfixL needle bs

/-- JS `hay.includes(needle)` (note: `includes("")` is `true`). -/
def jsIncludes (hay needle : String) : Bool := hasInfixL needle.data hay.data

/-- Helper for `removeFirst`: delete the first occurrence of `needle`. -/
def removeFirstL (needle : List Char) : List Char → List Char
  | [] => []
  | b :: bs =>
    if hasPrefixL needle (b :: bs) then (b :: bs).drop needle.length
    else b :: removeFirstL needle bs

/-- JS `hay.replace(needle, "")`: remove the first occurrence of `needle`. -/
def removeFirst (hay needle : String) : String :=
  String.mk (removeFirstL needle.data hay.data)

/-- First non-empty string of a list (the result of a JS `a || b || ...` chain). -/
def firstNonempty (l : List String) : String :=
  (l.find? (fun s => !(s == ""))).getD ""

/-! ## DOM model

Only what `part_003` reads.  A `RadioElem` is one `input[type="radio"]` of the
document (used by the `allOptions` group query, lines 341-370).  An `Ancestor`
is one element of the `parentElement` chain of the interacted element, nearest
first, up to but excluding `document.body` (the walks at lines 261-267,
309-339, 440-449, 452-477, 505-513 all stop at `document.body`). -/

/-- The parent element data read for a radio of the group query (lines 355-360). -/
structure ParentRef where
  tagName : String
  textContent : String
deriving DecidableEq

/-- One `input[type="radio"]` of the document (group query, lines 343-369). -/
structure RadioElem where
  id : String
  name : String
  value : String
  parent : Option ParentRef
deriving DecidableEq

/-- A radio input found inside an ancestor container by the fieldName walk
(lines 325-329): its `value` property and the text of its `closest('label')`. -/
structure AncRadio where
  value : String
  closestLabel : Option String
deriving DecidableEq

/-- A radio/role=radio element inside the immediate parent, used by the
radio-label fallback (lines 390-413). `isTarget` marks the interacted element
itself (`radio !== element`). -/
structure FbRadio where
  isTarget : Bool
  value : String
  textContent : String
deriving DecidableEq

/-- One ancestor of the interacted element. `legend` is the text of the first
`<legend>` descendant if any (line 313); `groupLabelTexts` the texts of the
`label, h1-h6, .label, .form-label, .field-label` descendants in document
order (line 321); `radios` the `input[type="radio"]` descendants (line 325);
`fallbackRadios` the `input[type=radio], button[role=radio]` descendants
(line 394, only read on the immediate parent). -/
structure Ancestor where
  tagName : String
  textContent : String
  legend : Option String
  groupLabelTexts : List String
  radios : List AncRadio
  fallbackRadios : List FbRadio
deriving DecidableEq

/-- The fields of the interacted element that the script dereferences. -/
structure Elem where
  tagName : String
  typeAttr : String
  id : String
  name : String
  value : String
  placeholder : String
  title : String
  textContent : String
  role : Option String
  ariaLabel : Option String
  ariaLabelledBy : Option String
  classList : List String
  attributes : List (String × String)
deriving DecidableEq

/-- The interacted element with its surroundings: ancestor chain (nearest
first, `document.body` excluded), and the trimmable text contents of its
following and preceding element siblings (nearest first). -/
structure ElemCtx where
  elem : Elem
  parents : List Ancestor
  nextSibs : List String
  prevSibs : List String
deriving DecidableEq

/-- The document-level lookups the script performs: `label[for=id]` text by
`for` attribute (first match in document order), `getElementById` text, and
all `input[type="radio"]` elements in document order. -/
structure Doc where
  labels : List (String × String)
  elementsById : List (String × String)
  radios : List RadioElem
deriving DecidableEq

/-- `document.querySelector('label[for="id"]')?.textContent`. -/
def labelForText (doc : Doc) (i : String) : Option String :=
  (doc.labels.find? (fun p => p.1 == i)).map (fun p => p.2)

/-- `document.getElementById(id)?.textContent`. -/
def byIdText (doc : Doc) (i : String) : Option String :=
  (doc.elementsById.find? (fun p => p.1 == i)).map (fun p => p.2)

/-- A default element (used as base for concrete test fixtures). -/
def elem0 : Elem :=
  { tagName := "DIV", typeAttr := "", id := "", name := "", value := ""
    placeholder := "", title := "", textContent := "", role := none
    ariaLabel := none, ariaLabelledBy := none, classList := [], attributes := [] }

/-! ## Branch predicates of `extractSemanticInfo` -/

/-- Lines 245-246: `input[type=radio|checkbox]` or `button[role=radio]`. -/
def isGroupedCtrl (e : Elem) : Bool :=
  (jsToLower e.tagName == "input" &&
    (jsToLower e.typeAttr == "radio" || jsToLower e.typeAttr == "checkbox")) ||
  (jsToLower e.tagName == "button" && e.role == some "radio")

/-- Lines 419-420 (and 547-549): `button` or `input[type=button|submit]`. -/
def isButtonLike (e : Elem) : Bool :=
  jsToLower e.tagName == "button" ||
  (jsToLower e.tagName == "input" &&
    (jsToLower e.typeAttr == "button" || jsToLower e.typeAttr == "submit"))

/-! ## Radio/checkbox branch (lines 244-414) -/

/-- Strategy 1 of `optionValue` (lines 253-259) and strategy 1 of the generic
branch (lines 431-437): text of `label[for=id]`, trimmed, when the element has
a non-empty id and the label exists. -/
def labelForStrategy (doc : Doc) (ctx : ElemCtx) : String :=
  if ctx.elem.id ≠ "" then
    match labelForText doc ctx.elem.id with
    | some t => jsTrim t
    | none => ""
  else ""

/-- Strategy 2 of `optionValue` (lines 261-267): immediate parent is a `<label>`. -/
def parentIsLabelText (ctx : ElemCtx) : String :=
  match ctx.parents.head? with
  | some p => if jsToLower p.tagName = "label" then jsTrim p.textContent else ""
  | none => ""

/-- Sibling scan of strategy 3 (lines 269-293): first sibling whose trimmed
text is non-empty with length strictly between 1 and 50. -/
def sibScan (sibs : List String) : String :=
  (sibs.findSome? (fun s =>
    let t := jsTrim s
    if t ≠ "" ∧ strLen t < 50 ∧ 1 < strLen t then some t else none)).getD ""

/-- `optionValue` of the radio/checkbox branch (lines 252-302). -/
def optionValueOf (doc : Doc) (ctx : ElemCtx) : String :=
  let o1 := labelForStrategy doc ctx
  let o2 := if o1 = "" then parentIsLabelText ctx else o1
  let o3 := if o2 = "" then jsOr (sibScan ctx.nextSibs) (sibScan ctx.prevSibs) else o2
  if o3 = "" then
    if jsToLower ctx.elem.typeAttr = "radio" ∧ ctx.elem.value ≠ "" ∧
        strLen ctx.elem.value < 30 then
      ctx.elem.value
    else ""
  else o3

/-- `radio.closest('label')?.textContent?.trim() || ''` (line 327). -/
def closestLabelText (r : AncRadio) : String :=
  match r.closestLabel with
  | some s => jsTrim s
  | none => ""

/-- Lines 325-329: a candidate group label is "general" when it does not
contain any radio's `value` or any radio's `closest('label')` text (JS
`includes`; note `includes("")` is always true). -/
def isGeneralLabel (c : Ancestor) (lt : String) : Bool :=
  ! c.radios.any (fun r =>
      jsIncludes lt r.value || jsIncludes lt (closestLabelText r))

/-- Lines 321-335: first heading/label descendant of the container whose
trimmed text is non-empty, 3..99 chars long and general. -/
def firstGroupLabel (c : Ancestor) : Option String :=
  c.groupLabelTexts.findSome? (fun t0 =>
    let t := jsTrim t0
    if t ≠ "" ∧ 2 < strLen t ∧ strLen t < 100 ∧ isGeneralLabel c t = true then
      some t
    else none)

/-- The `fieldName` ancestor walk (lines 309-339): a `<fieldset>` containing a
`<legend>` ends the walk with the legend's trimmed text; otherwise the first
passing heading/label descendant of the container ends it; otherwise continue
with the next ancestor. -/
def findFieldName : List Ancestor → String
  | [] => ""
  | c :: rest =>
    if jsToLower c.tagName = "fieldset" ∧ c.legend.isSome then
      jsTrim (c.legend.getD "")
    else
      match firstGroupLabel c with
      | some t => t
      | none => findFieldName rest

/-- What one ancestor of the fieldName walk yields (claim-side view of
lines 311-335, used to state the stop-at-first-yield property). -/
def containerYield (c : Ancestor) : Option String :=
  if jsToLower c.tagName = "fieldset" ∧ c.legend.isSome then
    some (jsTrim (c.legend.getD ""))
  else firstGroupLabel c

/-- Per-radio option text of the `allOptions` group query (lines 344-364):
`label[for=id]` text, else parent-is-label text, else the `value` attribute. -/
def radioOptionText (doc : Doc) (r : RadioElem) : String :=
  let t1 :=
    if r.id ≠ "" then
      match labelForText doc r.id with
      | some t => jsTrim t
      | none => ""
    else ""
  let t2 :=
    if t1 = "" then
      match r.parent with
      | some p => if jsToLower p.tagName = "label" then jsTrim p.textContent else ""
      | none => ""
    else t1
  if t2 = "" then r.value else t2

/-- Line 366-368: push a non-empty option text not already collected. -/
def addOption (acc : List String) (t : String) : List String :=
  if t ≠ "" ∧ acc.contains t = false then acc ++ [t] else acc

/-- `allOptions` of a radio group (lines 342-370): fold over all
`input[type=radio][name=n]` in document order. -/
def allOptionsFor (doc : Doc) (n : String) : List String :=
  (doc.radios.filter (fun r => r.name == n)).foldl
    (fun acc r => addOption acc (radioOptionText doc r)) []

/-- `fieldName` as computed inside `extractSemanticInfo` (guarded by
`elementType === 'radio'`, line 305). -/
def fieldNameOf (ctx : ElemCtx) : String :=
  if jsToLower ctx.elem.typeAttr = "radio" then findFieldName ctx.parents else ""

/-- `allOptions` as computed inside `extractSemanticInfo` (lines 341-370,
guarded by `elementType === 'radio'` and a non-empty `name`). -/
def allOptionsOfCtx (doc : Doc) (ctx : ElemCtx) : List String :=
  if jsToLower ctx.elem.typeAttr = "radio" ∧ ctx.elem.name ≠ "" then
    allOptionsFor doc ctx.elem.name
  else []

/-- Lines 374-380: combined label `"fieldName: optionValue"`. -/
def combineFieldOption (fieldName optionValue : String) : String :=
  if fieldName ≠ "" ∧ optionValue ≠ "" then fieldName ++ ": " ++ optionValue
  else if optionValue ≠ "" then optionValue
  else if fieldName ≠ "" then fieldName
  else ""

/-- Radio-label fallback (lines 389-414): clean the immediate parent's text by
removing the other radios' values and texts (JS `replace` removes the first
occurrence), then accept it when 2..49 chars long. -/
def radioFallbackLabel (ctx : ElemCtx) : String :=
  match ctx.parents.head? with
  | none => ""
  | some parent =>
    let parentText := jsTrim parent.textContent
    if parentText ≠ "" ∧ strLen parentText < 100 then
      let cleaned := parent.fallbackRadios.foldl (fun acc r =>
        if r.isTarget then acc
        else
          let acc1 := if r.value ≠ "" then jsTrim (removeFirst acc r.value) else acc
          let rText := jsTrim r.textContent
          if rText ≠ "" then jsTrim (removeFirst acc1 rText) else acc1) parentText
      if cleaned ≠ "" ∧ 1 < strLen cleaned ∧ strLen cleaned < 50 then cleaned else ""
    else ""

/-! ## Button branch (lines 418-429) and generic branch (lines 430-501) -/

/-- Button label (lines 418-429): own trimmed text content, else
`aria-label || value || title`. -/
def buttonLabelText (e : Elem) : String :=
  let t := jsTrim e.textContent
  if t = "" then jsOr (e.ariaLabel.getD "") (jsOr e.value e.title) else t

/-- Strategy 2 of the generic branch (lines 439-449): walk ancestors up to
`document.body` looking for a `<label>` (the walk breaks at the first label
even when its text trims to empty). -/
def parentLabelText : List Ancestor → String
  | [] => ""
  | p :: rest =>
    if jsToLower p.tagName = "label" then jsTrim p.textContent
    else parentLabelText rest

/-- Strategy 3 of the generic branch (lines 452-477): text of the immediate
parent with the element's own text removed. -/
def strategy3Label (ctx : ElemCtx) : String :=
  match ctx.parents.head? with
  | none => ""
  | some parent =>
    let parentText := jsTrim parent.textContent
    let elementOwnText :=
      jsTrim (jsOr ctx.elem.value (jsOr ctx.elem.placeholder ctx.elem.textContent))
    if parentText ≠ "" ∧ parentText ≠ elementOwnText ∧ strLen parentText < 200 then
      let cleanedText :=
        if elementOwnText ≠ "" then jsTrim (removeFirst parentText elementOwnText)
        else parentText
      if cleanedText ≠ "" ∧ 2 < strLen cleanedText then cleanedText
      else if strLen parentText < 100 then parentText
      else ""
    else ""

/-- Strategy 4 of the generic branch (lines 479-490): first preceding sibling
whose trimmed text is non-empty and 3..99 chars long. -/
def prevSiblingLabel (sibs : List String) : String :=
  (sibs.findSome? (fun s =>
    let t := jsTrim s
    if t ≠ "" ∧ strLen t < 100 ∧ 2 < strLen t then some t else none)).getD ""

/-- Strategy 5 of the generic branch (lines 492-501): dereference
`aria-labelledby`. -/
def ariaLabelledByText (doc : Doc) (ctx : ElemCtx) : String :=
  match ctx.elem.ariaLabelledBy with
  | none => ""
  | some refId =>
    if refId ≠ "" then
      match byIdText doc refId with
      | some t => jsTrim t
      | none => ""
    else ""

/-- Generic label extraction (lines 430-501), strategies 1-5 in order, each
tried only while the previous ones produced an empty string. -/
def genericLabelText (doc : Doc) (ctx : ElemCtx) : String :=
  let l1 := labelForStrategy doc ctx
  let l2 := if l1 = "" then parentLabelText ctx.parents else l1
  let l3 := if l2 = "" then strategy3Label ctx else l2
  let l4 := if l3 = "" then prevSiblingLabel ctx.prevSibs else l3
  if l4 = "" then ariaLabelledByText doc ctx else l4

/-! ## `extractSemanticInfo` (lines 238-532) -/

/-- The `_radioButtonInfo` record (lines 383-387). -/
structure RadioButtonInfo where
  fieldName : String
  optionValue : String
  allOptions : List String
deriving DecidableEq

/-- The record returned by `extractSemanticInfo` (lines 518-531). -/
structure SemanticInfo where
  labelText : String
  textContent : String
  placeholder : String
  title : String
  ariaLabel : String
  value : String
  name : String
  id : String
  typeAttr : String
  parentText : String
  radioButtonInfo : Option RadioButtonInfo
deriving DecidableEq

/-- `labelText` of `extractSemanticInfo`: radio/checkbox branch
(lines 244-414), button branch (lines 418-429), generic branch
(lines 430-501). -/
def labelTextOf (doc : Doc) (ctx : ElemCtx) : String :=
  if isGroupedCtrl ctx.elem then
    let c := combineFieldOption (fieldNameOf ctx) (optionValueOf doc ctx)
    if c = "" then radioFallbackLabel ctx else c
  else if isButtonLike ctx.elem then buttonLabelText ctx.elem
  else genericLabelText doc ctx

/-- The `_radioButtonInfo` stash (lines 383-387, read back at line 516):
present exactly when the radio/checkbox branch ran in this call. -/
def radioInfoOf (doc : Doc) (ctx : ElemCtx) : Option RadioButtonInfo :=
  if isGroupedCtrl ctx.elem then
    some ⟨fieldNameOf ctx, optionValueOf doc ctx, allOptionsOfCtx doc ctx⟩
  else none

/-- `parentText` of the returned record (lines 505-513): first ancestor below
`document.body` whose trimmed text is non-empty and shorter than 100 chars. -/
def parentTextOf (parents : List Ancestor) : String :=
  (parents.findSome? (fun p =>
    let t := jsTrim p.textContent
    if t ≠ "" ∧ strLen t < 100 then some t else none)).getD ""

/-- `extractSemanticInfo` (lines 238-532). -/
def extractSemanticInfo (doc : Doc) (ctx : ElemCtx) : SemanticInfo :=
  { labelText := labelTextOf doc ctx
    textContent := strTake (jsTrim ctx.elem.textContent) 200
    placeholder := ctx.elem.placeholder
    title := ctx.elem.title
    ariaLabel := ctx.elem.ariaLabel.getD ""
    value := ctx.elem.value
    name := ctx.elem.name
    id := ctx.elem.id
    typeAttr := ctx.elem.typeAttr
    parentText := parentTextOf ctx.parents
    radioButtonInfo := radioInfoOf doc ctx }

/-! ## Click and input handlers (lines 534-619 and 661-701) -/

/-- `targetText` of `handleCustomClick` (lines 544-565). -/
def clickTargetText (doc : Doc) (ctx : ElemCtx) : String :=
  let si := extractSemanticInfo doc ctx
  if isButtonLike ctx.elem then
    jsOr (jsTrim si.textContent) (jsOr si.ariaLabel (jsOr ctx.elem.value si.title))
  else
    jsOr si.labelText (jsOr si.textContent (jsOr si.placeholder
      (jsOr si.ariaLabel (jsOr si.name si.id))))

/-- The semantically relevant fields of the `CUSTOM_INPUT_EVENT` payload built
by `handleInput` (lines 680-692; timestamp/url/selector plumbing omitted). -/
structure InputData where
  elementTag : String
  value : String
  inputType : String
  targetText : String
  semanticInfo : SemanticInfo
deriving DecidableEq

/-- `handleInput` (lines 661-701): the payload of the emitted input record.
`isPassword` is `targetElement.type === "password"` (line 665). -/
def handleInputData (doc : Doc) (ctx : ElemCtx) : InputData :=
  let isPassword := ctx.elem.typeAttr == "password"
  let si := extractSemanticInfo doc ctx
  { elementTag := ctx.elem.tagName
    value := if isPassword then "********" else ctx.elem.value
    inputType := jsOr (jsToLower ctx.elem.typeAttr) "text"
    targetText := jsOr si.labelText (jsOr si.placeholder
      (jsOr si.ariaLabel (jsOr si.name si.id)))
    semanticInfo := si }

/-! ## Enhanced CSS selector (lines 40-112) -/

/-- The attribute allow-list `SAFE_ATTRIBUTES` (lines 42-65). -/
def SAFE_ATTRIBUTES : List String :=
  ["id", "name", "type", "placeholder", "aria-label", "aria-labelledby",
   "aria-describedby", "role", "for", "autocomplete", "required", "readonly",
   "alt", "title", "src", "href", "target", "data-id", "data-qa", "data-cy",
   "data-testid"]

/-- First character of the class-token pattern `[a-zA-Z_]`. -/
def isValidClassChar1 (c : Char) : Bool := c.isAlpha || c == '_'

/-- Later characters of the class-token pattern `[a-zA-Z0-9_-]`. -/
def isValidClassRest (c : Char) : Bool := c.isAlphanum || c == '_' || c == '-'

/-- The conservative identifier pattern `/^[a-zA-Z_][a-zA-Z0-9_-]*$/` (line 74). -/
def validClassName (s : String) : Bool :=
  match s.data with
  | [] => false
  | c :: cs => isValidClassChar1 c && cs.all isValidClassRest

/-- `CSS.escape`, which is the identity on every string this script passes to
it: attribute names from the fixed allow-list and class tokens matching the
conservative identifier pattern contain no character it would alter. -/
def cssEscape (s : String) : String := s

/-- Line 96, `attrValue.replace(/"/g, '"')`: the source replaces a double
quote by a double quote, which is the identity. -/
def safeValueOf (v : String) : String := v

/-- Line 97, `/["'<>`\s]/.test(attrValue)`: the value contains a quote, angle
bracket, backtick or whitespace (characters unsafe for exact CSS matching). -/
def hasUnsafeValueChar (v : String) : Bool :=
  v.data.any (fun c =>
    c == '"' || c == Char.ofNat 39 || c == '<' || c == '>' ||
    c == Char.ofNat 96 || jsIsSpace c)

/-- `getEnhancedCSSSelector` (lines 67-112).  The `try`/`catch` fallback of the
source is unreachable in this pure model, so only the `try` body is embedded;
`_xpath` is kept to mirror the signature. -/
def getEnhancedCSSSelector (e : Elem) (_xpath : String) : String :=
  let base := jsToLower e.tagName
  let withClasses := e.classList.foldl (fun acc className =>
    if className ≠ "" ∧ validClassName className = true then
      acc ++ "." ++ cssEscape className
    else acc) base
  e.attributes.foldl (fun acc p =>
    let attrName := p.1
    let attrValue := p.2
    if attrName = "class" then acc
    else if jsTrim attrName = "" then acc
    else if SAFE_ATTRIBUTES.contains attrName = false then acc
    else
      let safeAttribute := cssEscape attrName
      if attrValue = "" then acc ++ "[" ++ safeAttribute ++ "]"
      else
        let safeValue := safeValueOf attrValue
        if hasUnsafeValueChar attrValue = true then
          acc ++ "[" ++ safeAttribute ++ "*=\"" ++ safeValue ++ "\"]"
        else
          acc ++ "[" ++ safeAttribute ++ "=\"" ++ safeValue ++ "\"]") withClasses

/-! Claim-side view of the selector (spec 4.2 / C9): tag name, then one part
per accepted class token, then one part per allow-listed present attribute. -/

/-- Claim-side class part: `.token` for tokens matching the pattern. -/
def classPart (c : String) : String :=
  if c ≠ "" ∧ validClassName c = true then "." ++ c else ""

/-- Claim-side attribute part: `[attr]` for an empty value, `[attr*="v"]` for
a value with unsafe characters, `[attr="v"]` otherwise. -/
def attrPart (p : String × String) : String :=
  if p.1 = "class" ∨ jsTrim p.1 = "" ∨ SAFE_ATTRIBUTES.contains p.1 = false then ""
  else if p.2 = "" then "[" ++ p.1 ++ "]"
  else if hasUnsafeValueChar p.2 = true then "[" ++ p.1 ++ "*=\"" ++ p.2 ++ "\"]"
  else "[" ++ p.1 ++ "=\"" ++ p.2 ++ "\"]"

/-- Concatenation of the parts of a section. -/
def concatMapStr (f : α → String) : List α → String
  | [] => ""
  | x :: xs => f x ++ concatMapStr f xs

/-- Claim-side selector: tag name ++ class section ++ attribute section. -/
def claimSelector (e : Elem) : String :=
  jsToLower e.tagName ++ concatMapStr classPart e.classList
    ++ concatMapStr attrPart e.attributes

/-! ## Persisted workflow step format (`workflow-types.ts`) -/

/-- `NavigationStep` (workflow-types.ts lines 38-42). -/
structure NavigationStep where
  timestamp : Nat
  tabId : Nat
  url : String
  screenshot : Option String
deriving DecidableEq

/-- `ClickStep` (lines 44-56). -/
structure ClickStep where
  timestamp : Nat
  tabId : Nat
  url : String
  frameUrl : String
  xpath : String
  cssSelector : Option String
  elementTag : String
  elementText : String
  targetText : Option String
  radioButtonInfo : Option RadioButtonInfo
  screenshot : Option String
deriving DecidableEq

/-- `InputStep` (lines 58-68). -/
structure InputStep where
  timestamp : Nat
  tabId : Nat
  url : String
  frameUrl : String
  xpath : String
  cssSelector : Option String
  elementTag : String
  value : String
  targetText : Option String
  screenshot : Option String
deriving DecidableEq

/-- `KeyPressStep` (lines 70-79): note it has no `targetText` field at all. -/
structure KeyPressStep where
  timestamp : Nat
  tabId : Nat
  url : Option String
  frameUrl : Option String
  key : String
  xpath : Option String
  cssSelector : Option String
  elementTag : Option String
  screenshot : Option String
deriving DecidableEq

/-- `ScrollStep` (lines 81-87). -/
structure ScrollStep where
  timestamp : Nat
  tabId : Nat
  targetId : Nat
  scrollX : Int
  scrollY : Int
deriving DecidableEq

/-- `RadioStep` (lines 89-100). -/
structure RadioStep where
  timestamp : Nat
  tabId : Nat
  url : String
  frameUrl : String
  xpath : String
  cssSelector : Option String
  fieldName : String
  selectedOption : String
  options : List String
  targetText : Option String
  screenshot : Option String
deriving DecidableEq

/-- `SelectStep` (lines 102-114). -/
structure SelectStep where
  timestamp : Nat
  tabId : Nat
  url : String
  frameUrl : String
  xpath : String
  cssSelector : Option String
  fieldName : String
  selectedOption : String
  selectedValue : String
  options : List (String × String)
  targetText : Option String
  screenshot : Option String
deriving DecidableEq

/-- `CheckboxStep` (lines 116-126). -/
structure CheckboxStep where
  timestamp : Nat
  tabId : Nat
  url : String
  frameUrl : String
  xpath : String
  cssSelector : Option String
  fieldName : String
  checked : Bool
  targetText : Option String
  screenshot : Option String
deriving DecidableEq

/-- `ExtractStep` (lines 128-134). -/
structure ExtractStep where
  timestamp : Nat
  tabId : Nat
  url : String
  extractionGoal : String
  output : Option String
  screenshot : Option String
deriving DecidableEq

/-- The discriminated union `Step` (lines 19-29). -/
inductive Step where
  | navigation (s : NavigationStep)
  | click (s : ClickStep)
  | input (s : InputStep)
  | radio (s : RadioStep)
  | select (s : SelectStep)
  | checkbox (s : CheckboxStep)
  | keyPress (s : KeyPressStep)
  | scroll (s : ScrollStep)
  | extract (s : ExtractStep)
deriving DecidableEq

/-- The `type` discriminant literal of a step. -/
def stepType : Step → String
  | .navigation _ => "navigation"
  | .click _ => "click"
  | .input _ => "input"
  | .radio _ => "radio"
  | .select _ => "select"
  | .checkbox _ => "checkbox"
  | .keyPress _ => "key_press"
  | .scroll _ => "scroll"
  | .extract _ => "extract"

/-- The `targetText` field of a step, `none` where the interface lacks it. -/
def stepTargetText : Step → Option String
  | .click s => s.targetText
  | .input s => s.targetText
  | .radio s => s.targetText
  | .select s => s.targetText
  | .checkbox s => s.targetText
  | _ => none

/-! ## Helper lemmas -/

theorem strAppendAssoc (a b c : String) : a ++ b ++ c = a ++ (b ++ c) := by
  cases a with | mk la =>
  cases b with | mk lb =>
  cases c with | mk lc =>
  show String.mk (la ++ lb ++ lc) = String.mk (la ++ (lb ++ lc))
  exact congrArg String.mk (List.append_assoc la lb lc)

theorem strAppendEmpty (a : String) : a ++ "" = a := by
  cases a with | mk la =>
  show String.mk (la ++ []) = String.mk la
  exact congrArg String.mk (List.append_nil la)

theorem foldl_concatMapStr (f : α → String) :
    ∀ (l : List α) (s : String),
      l.foldl (fun acc x => acc ++ f x) s = s ++ concatMapStr f l := by
  intro l
  induction l with
  | nil => intro s; simp [concatMapStr, strAppendEmpty]
  | cons x xs ih =>
    intro s
    simp only [List.foldl_cons, concatMapStr, ih, strAppendAssoc]

theorem firstNonempty_nil : firstNonempty [] = "" := rfl

theorem firstNonempty_cons (a : String) (l : List String) :
    firstNonempty (a :: l) = jsOr a (firstNonempty l) := by
  by_cases h : a = ""
  · subst h
    rw [firstNonempty, List.find?_cons_of_neg _ (by decide), jsOr]
    simp [firstNonempty]
  · rw [firstNonempty, List.find?_cons_of_pos _ (by simp [h]), jsOr, if_neg h]
    rfl

theorem jsOr_assoc (a b c : String) : jsOr (jsOr a b) c = jsOr a (jsOr b c) := by
  by_cases h : a = "" <;> by_cases h2 : b = "" <;> simp [jsOr, h, h2]

theorem classStep_eq :
    (fun (acc : String) (className : String) =>
      if className ≠ "" ∧ validClassName className = true then
        acc ++ "." ++ cssEscape className
      else acc) =
    fun acc className => acc ++ classPart className := by
  funext acc className
  by_cases h : className ≠ "" ∧ validClassName className = true
  · rw [if_pos h, classPart, if_pos h, cssEscape, strAppendAssoc]
  · rw [if_neg h, classPart, if_neg h, strAppendEmpty]

theorem attrStep_eq :
    (fun (acc : String) (p : String × String) =>
      let attrName := p.1
      let attrValue := p.2
      if attrName = "class" then acc
      else if jsTrim attrName = "" then acc
      else if SAFE_ATTRIBUTES.contains attrName = false then acc
      else
        let safeAttribute := cssEscape attrName
        if attrValue = "" then acc ++ "[" ++ safeAttribute ++ "]"
        else
          let safeValue := safeValueOf attrValue
          if hasUnsafeValueChar attrValue = true then
            acc ++ "[" ++ safeAttribute ++ "*=\"" ++ safeValue ++ "\"]"
          else
            acc ++ "[" ++ safeAttribute ++ "=\"" ++ safeValue ++ "\"]") =
    fun acc p => acc ++ attrPart p := by
  funext acc p
  simp only [attrPart, cssEscape, safeValueOf]
  split_ifs <;> simp_all [strAppendAssoc, strAppendEmpty]

/-- Claim C9 (confirmed): for every element, the generated primary CSS selector
is the lowercased tag name, followed by one class part per class token matching
the conservative identifier pattern, followed by one attribute part per present
attribute of the fixed allow-list, where an empty value yields `[attr]`, a
value containing a quote, angle bracket, backtick or whitespace yields
`[attr*="value"]`, and any other value yields `[attr="value"]`. -/
theorem C9_selector_shape (e : Elem) (xpath : String) :
    getEnhancedCSSSelector e xpath = claimSelector e := by
  rw [getEnhancedCSSSelector, claimSelector]
  rw [show (fun (acc : String) (className : String) =>
        if className ≠ "" ∧ validClassName className = true then
          acc ++ "." ++ cssEscape className
        else acc) = fun acc className => acc ++ classPart className from classStep_eq]
  rw [foldl_concatMapStr]
  rw [attrStep_eq, foldl_concatMapStr, strAppendAssoc]

/-! ## Claim C7: target_text presence across step kinds -/

/-- A key_press step exactly as `handleKeydown` emits it (lines 810-819 of the
content script: timestamp, url, key, xpath, cssSelector, elementTag — and no
targetText), here as a persisted `KeyPressStep`. -/
def kpStep : KeyPressStep :=
  { timestamp := 1700000000, tabId := 1, url := some "https://example.com"
    frameUrl := some "https://example.com", key := "Enter"
    xpath := some "id(\"q\")", cssSelector := some "input[name=\"q\"]"
    elementTag := some "INPUT", screenshot := none }

/-- A click step carrying a targetText. -/
def clickStepWithText : ClickStep :=
  { timestamp := 1700000001, tabId := 1, url := "https://example.com"
    frameUrl := "https://example.com", xpath := "id(\"go\")"
    cssSelector := some "button", elementTag := "BUTTON", elementText := "Go"
    targetText := some "Go", radioButtonInfo := none, screenshot := none }

/-- A click step without any targetText (the field is optional). -/
def clickStepNoText : ClickStep :=
  { timestamp := 1700000002, tabId := 1, url := "https://example.com"
    frameUrl := "https://example.com", xpath := "div[3]"
    cssSelector := some "div", elementTag := "DIV", elementText := ""
    targetText := none, radioButtonInfo := none, screenshot := none }

/-- Claim C7 fails on the code: `key_press` is one of the actionable kinds the
claim covers, yet the persisted `KeyPressStep` interface has no `target_text`
field at all, so this well-typed key_press step carries none. -/
theorem C7_counterexample :
    stepType (Step.keyPress kpStep) ∈
      ["click", "input", "radio", "select", "checkbox", "key_press"] ∧
    stepTargetText (Step.keyPress kpStep) = none := by
  constructor
  · decide
  · rfl

/-- Claim C7 (amended): in the persisted step format, `target_text` is
optional, not required — only click, input, radio, select and checkbox steps
can carry a `target_text`, and key_press steps (like navigation, scroll and
extract steps) never do; even for the five kinds that can carry it, a step
without one is well-formed. -/
theorem C7_targetText_optional :
    (∀ s : Step, (stepTargetText s).isSome = true →
      stepType s ∈ ["click", "input", "radio", "select", "checkbox"]) ∧
    (∀ s : Step, stepType s = "key_press" → stepTargetText s = none) ∧
    (∃ s : Step, stepType s = "click" ∧ stepTargetText s = none) ∧
    (∃ s : Step, stepType s = "click" ∧ (stepTargetText s).isSome = true) := by
  refine ⟨?_, ?_, ⟨Step.click clickStepNoText, rfl, rfl⟩,
    ⟨Step.click clickStepWithText, rfl, rfl⟩⟩
  · intro s h
    cases s <;> simp_all [stepType, stepTargetText]
  · intro s h
    cases s <;> simp_all [stepType, stepTargetText]

/-- Witness for `C7_targetText_optional`: its first conjunct applied to a
concrete click step carrying a targetText. -/
theorem C7_witness :
    (stepTargetText (Step.click clickStepWithText)).isSome = true ∧
    stepType (Step.click clickStepWithText) ∈
      ["click", "input", "radio", "select", "checkbox"] :=
  ⟨by decide, C7_targetText_optional.1 (Step.click clickStepWithText) (by decide)⟩

/-! ## Claim C10: password masking in `handleInput` -/

/-- A password input with the typed text as its live `value` property. -/
def pwCtx (typed : String) : ElemCtx :=
  { elem := { elem0 with
      tagName := "INPUT", typeAttr := "password", id := "pw1", name := "pw"
      value := typed }
    parents := [], nextSibs := [], prevSibs := [] }

/-- A document containing `<label for="pw1">Password</label>`. -/
def pwDoc : Doc := { labels := [("pw1", "Password")], elementsById := [], radios := [] }

/-- Claim C10 is the intended behaviour but the code leaks: for a password
input, the top-level `value` of the emitted record is `"********"` and is
identical across runs that differ only in the typed secret — yet the same
payload embeds `semanticInfo`, whose `value` field (line 524) carries the raw
typed password, so the typed secret does appear in the recorded step and the
two payloads are distinguishable. -/
theorem C10_password_mask_leak :
    (handleInputData pwDoc (pwCtx "hunter2")).value = "********" ∧
    (handleInputData pwDoc (pwCtx "s3cret9")).value = "********" ∧
    (handleInputData pwDoc (pwCtx "hunter2")).value =
      (handleInputData pwDoc (pwCtx "s3cret9")).value ∧
    (handleInputData pwDoc (pwCtx "hunter2")).semanticInfo.value = "hunter2" ∧
    (handleInputData pwDoc (pwCtx "hunter2")).semanticInfo ≠
      (handleInputData pwDoc (pwCtx "s3cret9")).semanticInfo := by
  refine ⟨rfl, rfl, rfl, rfl, ?_⟩
  decide

/-! ## Claim C1: labelText and `label[for=id]` -/

/-- A document containing `<label for="b1">Sign up for newsletter</label>`. -/
def c1Doc : Doc :=
  { labels := [("b1", "Sign up for newsletter")], elementsById := [], radios := [] }

/-- A `<button id="b1">Go</button>` — an element kind the claim explicitly
includes ("no exception for any element kind"). -/
def c1Ctx : ElemCtx :=
  { elem := { elem0 with tagName := "BUTTON", id := "b1", textContent := "Go" }
    parents := [], nextSibs := [], prevSibs := [] }

/-- Claim C1 fails on the code: this button has an id with a matching
`label[for=id]` whose trimmed text is "Sign up for newsletter", yet
`extractSemanticInfo` takes the button branch and returns the button's own
text "Go" as labelText, not the label's text. -/
theorem C1_counterexample :
    c1Ctx.elem.id = "b1" ∧
    labelForText c1Doc "b1" = some "Sign up for newsletter" ∧
    jsTrim "Sign up for newsletter" = "Sign up for newsletter" ∧
    (extractSemanticInfo c1Doc c1Ctx).labelText = "Go" ∧
    (extractSemanticInfo c1Doc c1Ctx).labelText ≠ "Sign up for newsletter" := by
  refine ⟨rfl, rfl, by decide, by decide, by decide⟩

/-- Claim C1 (amended): the `label[for=id]` rule holds for every element that
is *not* special-cased — not a button (`<button>` or `input[type=button|submit]`)
and not a grouped control (`input[type=radio|checkbox]` or
`button[role=radio]`) — whenever the matching label's trimmed text is
non-empty: labelText then equals that label's trimmed text content. -/
theorem C1_label_for_generic (doc : Doc) (ctx : ElemCtx) (t : String)
    (hg : isGroupedCtrl ctx.elem = false) (hb : isButtonLike ctx.elem = false)
    (hid : ctx.elem.id ≠ "") (hl : labelForText doc ctx.elem.id = some t)
    (ht : jsTrim t ≠ "") :
    (extractSemanticInfo doc ctx).labelText = jsTrim t := by
  show labelTextOf doc ctx = jsTrim t
  rw [labelTextOf, if_neg (by simp [hg]), if_neg (by simp [hb])]
  have h1 : labelForStrategy doc ctx = jsTrim t := by
    rw [labelForStrategy, if_pos hid, hl]
  rw [genericLabelText]
  simp only [h1, if_neg ht]

/-- Document for the C1 witness: `<label for="em">Email Address</label>`. -/
def c1wDoc : Doc :=
  { labels := [("em", "Email Address")], elementsById := [], radios := [] }

/-- A plain text input `<input type="text" id="em">`. -/
def c1wCtx : ElemCtx :=
  { elem := { elem0 with tagName := "INPUT", typeAttr := "text", id := "em" }
    parents := [], nextSibs := [], prevSibs := [] }

/-- Witness for `C1_label_for_generic` at a concrete generic element. -/
theorem C1_witness : (extractSemanticInfo c1wDoc c1wCtx).labelText = "Email Address" :=
  C1_label_for_generic c1wDoc c1wCtx "Email Address"
    (by decide) (by decide) (by decide) (by decide) (by decide)

theorem jsOr_empty (a : String) : jsOr a "" = a := by
  by_cases h : a = "" <;> simp [jsOr, h]

/-! ## Claim C2: generic click targetText priority order -/

/-- The priority order claimed for the generic case (spec 4.1 items 1-8):
label text, direct text content, placeholder, title, aria-label, value,
name, id — first non-empty wins. -/
def claimClickOrder (si : SemanticInfo) : String :=
  firstNonempty [si.labelText, si.textContent, si.placeholder, si.title,
    si.ariaLabel, si.value, si.name, si.id]

/-- An empty document. -/
def emptyDoc : Doc := { labels := [], elementsById := [], radios := [] }

/-- `<input type="text" title="Tip">` with no label, no siblings, no parents:
title is the first non-empty field in the claimed order. -/
def c2Ctx : ElemCtx :=
  { elem := { elem0 with tagName := "INPUT", typeAttr := "text", title := "Tip" }
    parents := [], nextSibs := [], prevSibs := [] }

/-- Claim C2 fails on the code: on this element `title` is the first non-empty
field of the claimed order, so the claim predicts targetText "Tip" — but the
click handler's chain (lines 558-564) never consults `title` (nor `value`) and
records the empty string. -/
theorem C2_counterexample :
    isButtonLike c2Ctx.elem = false ∧
    isGroupedCtrl c2Ctx.elem = false ∧
    claimClickOrder (extractSemanticInfo emptyDoc c2Ctx) = "Tip" ∧
    clickTargetText emptyDoc c2Ctx = "" ∧
    clickTargetText emptyDoc c2Ctx ≠
      claimClickOrder (extractSemanticInfo emptyDoc c2Ctx) := by
  decide

/-- Claim C2 (amended): for every clicked element that is not a button,
input[type=button|submit], radio, or checkbox, the recorded targetText is the
first non-empty string of, in order: label text, direct text content,
placeholder, aria-label, name, id — `title` and `value` are never consulted
(and sibling/parent text and the aria-labelledby dereference contribute
through the label-text stage rather than after id). -/
theorem C2_generic_priority (doc : Doc) (ctx : ElemCtx)
    (hb : isButtonLike ctx.elem = false) (_hg : isGroupedCtrl ctx.elem = false) :
    clickTargetText doc ctx =
      firstNonempty [(extractSemanticInfo doc ctx).labelText,
        (extractSemanticInfo doc ctx).textContent,
        (extractSemanticInfo doc ctx).placeholder,
        (extractSemanticInfo doc ctx).ariaLabel,
        (extractSemanticInfo doc ctx).name,
        (extractSemanticInfo doc ctx).id] := by
  simp only [clickTargetText, hb, Bool.false_eq_true, if_false,
    firstNonempty_cons, firstNonempty_nil, jsOr_empty]

/-- `<input type="search" placeholder="Search here">`. -/
def c2wCtx : ElemCtx :=
  { elem := { elem0 with
      tagName := "INPUT", typeAttr := "search", placeholder := "Search here" }
    parents := [], nextSibs := [], prevSibs := [] }

/-- Witness for `C2_generic_priority` at a concrete non-button element. -/
theorem C2_witness :
    clickTargetText emptyDoc c2wCtx =
      firstNonempty [(extractSemanticInfo emptyDoc c2wCtx).labelText,
        (extractSemanticInfo emptyDoc c2wCtx).textContent,
        (extractSemanticInfo emptyDoc c2wCtx).placeholder,
        (extractSemanticInfo emptyDoc c2wCtx).ariaLabel,
        (extractSemanticInfo emptyDoc c2wCtx).name,
        (extractSemanticInfo emptyDoc c2wCtx).id] :=
  C2_generic_priority emptyDoc c2wCtx (by decide) (by decide)

/-! ## Claim C3: button text priority order -/

/-- The priority order claimed for buttons: own text content, value,
aria-label, title. -/
def claimButtonOrder (e : Elem) : String :=
  firstNonempty [jsTrim e.textContent, e.value, e.ariaLabel.getD "", e.title]

/-- `<button value="V" aria-label="A" title="T"></button>` with no text. -/
def c3Ctx : ElemCtx :=
  { elem := { elem0 with
      tagName := "BUTTON", value := "V", ariaLabel := some "A", title := "T" }
    parents := [], nextSibs := [], prevSibs := [] }

/-- Claim C3 fails on the code: with empty own text the claim's order picks
`value` ("V"), but both `extractSemanticInfo` (line 426-428) and the click
handler (lines 551-555) consult `aria-label` before `value` and pick "A". -/
theorem C3_counterexample :
    isButtonLike c3Ctx.elem = true ∧
    claimButtonOrder c3Ctx.elem = "V" ∧
    (extractSemanticInfo emptyDoc c3Ctx).labelText = "A" ∧
    clickTargetText emptyDoc c3Ctx = "A" ∧
    (extractSemanticInfo emptyDoc c3Ctx).labelText ≠ claimButtonOrder c3Ctx.elem := by
  decide

/-- Claim C3 (amended): for every `<button>` or input of type button or submit,
the extracted identifying text prefers the element's own text content, then
its aria-label, then its value, then its title — in that order — and never
falls back to an ancestor `<label>`'s text: it is a function of the element's
own fields alone, independent of the document and the ancestor chain.  (For
`labelText`, buttons with `role="radio"` are handled by the grouped-control
branch instead, so they are excluded there.) -/
theorem C3_button_priority :
    (∀ (doc : Doc) (ctx : ElemCtx), isButtonLike ctx.elem = true →
      isGroupedCtrl ctx.elem = false →
      (extractSemanticInfo doc ctx).labelText =
        firstNonempty [jsTrim ctx.elem.textContent, ctx.elem.ariaLabel.getD "",
          ctx.elem.value, ctx.elem.title]) ∧
    (∀ (doc : Doc) (ctx : ElemCtx), isButtonLike ctx.elem = true →
      clickTargetText doc ctx =
        firstNonempty [jsTrim (strTake (jsTrim ctx.elem.textContent) 200),
          ctx.elem.ariaLabel.getD "", ctx.elem.value, ctx.elem.title]) ∧
    (∀ (d1 d2 : Doc) (ctx1 ctx2 : ElemCtx), isButtonLike ctx1.elem = true →
      isGroupedCtrl ctx1.elem = false → ctx1.elem = ctx2.elem →
      (extractSemanticInfo d1 ctx1).labelText =
        (extractSemanticInfo d2 ctx2).labelText ∧
      clickTargetText d1 ctx1 = clickTargetText d2 ctx2) := by
  have hLabel : ∀ (doc : Doc) (ctx : ElemCtx), isButtonLike ctx.elem = true →
      isGroupedCtrl ctx.elem = false →
      (extractSemanticInfo doc ctx).labelText =
        firstNonempty [jsTrim ctx.elem.textContent, ctx.elem.ariaLabel.getD "",
          ctx.elem.value, ctx.elem.title] := by
    intro doc ctx hb hg
    show labelTextOf doc ctx = _
    rw [labelTextOf, if_neg (by simp [hg]), if_pos hb]
    simp only [buttonLabelText, firstNonempty_cons, firstNonempty_nil, jsOr_empty]
    rfl
  have hClick : ∀ (doc : Doc) (ctx : ElemCtx), isButtonLike ctx.elem = true →
      clickTargetText doc ctx =
        firstNonempty [jsTrim (strTake (jsTrim ctx.elem.textContent) 200),
          ctx.elem.ariaLabel.getD "", ctx.elem.value, ctx.elem.title] := by
    intro doc ctx hb
    simp only [clickTargetText, extractSemanticInfo, hb, if_true,
      firstNonempty_cons, firstNonempty_nil, jsOr_empty]
  refine ⟨hLabel, hClick, ?_⟩
  intro d1 d2 ctx1 ctx2 hb hg he
  constructor
  · rw [hLabel d1 ctx1 hb hg, hLabel d2 ctx2 (he ▸ hb) (he ▸ hg), he]
  · rw [hClick d1 ctx1 hb, hClick d2 ctx2 (he ▸ hb), he]

/-- Witness for `C3_button_priority` at a concrete button. -/
theorem C3_witness :
    clickTargetText emptyDoc c3Ctx =
      firstNonempty [jsTrim (strTake (jsTrim c3Ctx.elem.textContent) 200),
        c3Ctx.elem.ariaLabel.getD "", c3Ctx.elem.value, c3Ctx.elem.title] :=
  C3_button_priority.2.1 emptyDoc c3Ctx (by decide)

/-! ## Claim C4: optionValue strategy order for grouped controls -/

/-- The strategy chain exactly as claim C4 states it: label[for=id] text, else
parent-is-label text, else sibling text (forward then backward, 2-49 chars),
else — for radios — the input's value attribute (no length condition). -/
def claimOptionValue (doc : Doc) (ctx : ElemCtx) : String :=
  firstNonempty [labelForStrategy doc ctx, parentIsLabelText ctx,
    jsOr (sibScan ctx.nextSibs) (sibScan ctx.prevSibs),
    if jsToLower ctx.elem.typeAttr = "radio" then ctx.elem.value else ""]

/-- The amended strategy chain: as above, but the value attribute is used only
when shorter than 30 characters (lines 297-302). -/
def claimOptionValueCapped (doc : Doc) (ctx : ElemCtx) : String :=
  firstNonempty [labelForStrategy doc ctx, parentIsLabelText ctx,
    jsOr (sibScan ctx.nextSibs) (sibScan ctx.prevSibs),
    if jsToLower ctx.elem.typeAttr = "radio" ∧ strLen ctx.elem.value < 30 then
      ctx.elem.value
    else ""]

/-- A radio input with no labels and no siblings whose value attribute is
exactly 30 characters long. -/
def c4Ctx : ElemCtx :=
  { elem := { elem0 with
      tagName := "INPUT", typeAttr := "radio", name := "g"
      value := "abcdefghijklmnopqrstuvwxyz1234" }
    parents := [], nextSibs := [], prevSibs := [] }

/-- Claim C4 fails on the code: for this radio the claim's strategy (4) — "the
input's value attribute" — predicts the 30-character value, but the code
(line 299) only accepts a value shorter than 30 characters and produces the
empty optionValue. -/
theorem C4_counterexample :
    strLen c4Ctx.elem.value = 30 ∧
    claimOptionValue emptyDoc c4Ctx = c4Ctx.elem.value ∧
    optionValueOf emptyDoc c4Ctx = "" ∧
    optionValueOf emptyDoc c4Ctx ≠ claimOptionValue emptyDoc c4Ctx := by
  decide

/-- Claim C4 (amended): optionValue is the first succeeding strategy of:
(1) `label[for=id]` text, (2) parent-is-label text, (3) first sibling text —
next siblings then previous siblings — of trimmed length strictly between 1
and 50, (4) for radios only, the value attribute *when it is shorter than 30
characters*; and a sibling text of 50 or more characters is never accepted —
any accepted sibling text is a whole trimmed sibling text of 2..49 chars. -/
theorem C4_optionValue_strategy :
    (∀ (doc : Doc) (ctx : ElemCtx),
      optionValueOf doc ctx = claimOptionValueCapped doc ctx) ∧
    (∀ sibs : List String, sibScan sibs = "" ∨
      (sibScan sibs ∈ sibs.map jsTrim ∧ 1 < strLen (sibScan sibs) ∧
        strLen (sibScan sibs) < 50)) := by
  constructor
  · intro doc ctx
    have he : (if jsToLower ctx.elem.typeAttr = "radio" ∧ ctx.elem.value ≠ "" ∧
        strLen ctx.elem.value < 30 then ctx.elem.value else "") =
        (if jsToLower ctx.elem.typeAttr = "radio" ∧ strLen ctx.elem.value < 30
          then ctx.elem.value else "") := by
      by_cases hv : ctx.elem.value = ""
      · rw [hv]; simp
      · simp [hv]
    show jsOr (jsOr (jsOr (labelForStrategy doc ctx) (parentIsLabelText ctx))
        (jsOr (sibScan ctx.nextSibs) (sibScan ctx.prevSibs)))
        (if jsToLower ctx.elem.typeAttr = "radio" ∧ ctx.elem.value ≠ "" ∧
          strLen ctx.elem.value < 30 then ctx.elem.value else "") =
      claimOptionValueCapped doc ctx
    rw [he, claimOptionValueCapped]
    simp only [firstNonempty_cons, firstNonempty_nil, jsOr_empty, jsOr_assoc]
  · intro sibs
    induction sibs with
    | nil => left; rfl
    | cons s rest ih =>
      by_cases hc : jsTrim s ≠ "" ∧ strLen (jsTrim s) < 50 ∧ 1 < strLen (jsTrim s)
      · right
        have hs : sibScan (s :: rest) = jsTrim s := by
          simp [sibScan, List.findSome?_cons, hc]
        rw [hs]
        exact ⟨List.mem_map_of_mem jsTrim (List.mem_cons_self s rest),
          hc.2.2, hc.2.1⟩
      · have hs : sibScan (s :: rest) = sibScan rest := by
          simp [sibScan, List.findSome?_cons, hc]
        rw [hs]
        rcases ih with h | ⟨hm, h1, h2⟩
        · left; exact h
        · right
          exact ⟨by rw [List.map_cons]; exact List.mem_cons_of_mem _ hm, h1, h2⟩

/-! ## Claim C5: fieldName ancestor walk for radios -/

theorem findSome?_some_spec {α β : Type} (f : α → Option β) :
    ∀ (l : List α) (b : β), l.findSome? f = some b → ∃ a ∈ l, f a = some b := by
  intro l
  induction l with
  | nil => intro b h; simp [List.findSome?] at h
  | cons x xs ih =>
    intro b h
    rw [List.findSome?_cons] at h
    cases hx : f x with
    | some y =>
      rw [hx] at h
      have hy : y = b := Option.some.inj h
      exact ⟨x, List.mem_cons_self _ _, by rw [hx, hy]⟩
    | none =>
      rw [hx] at h
      obtain ⟨a, ha, hfa⟩ := ih b h
      exact ⟨a, List.mem_cons_of_mem _ ha, hfa⟩

/-- Claim C5 (confirmed): for every radio input, fieldName is found by walking
the ancestor chain from the element's parent upward, stopping at the first
ancestor that yields: an ancestor `<fieldset>` containing a `<legend>` yields
the legend's trimmed text, and otherwise a label/heading-like descendant of
the ancestor yields fieldName only if it is one of the container's candidate
texts whose text contains neither any sibling radio's value nor any sibling
radio's associated label text — so an option's own text is never chosen as the
group name. -/
theorem C5_fieldName_walk :
    (∀ (doc : Doc) (ctx : ElemCtx), isGroupedCtrl ctx.elem = true →
      jsToLower ctx.elem.typeAttr = "radio" →
      ((extractSemanticInfo doc ctx).radioButtonInfo).map RadioButtonInfo.fieldName =
        some (findFieldName ctx.parents)) ∧
    (∀ parents : List Ancestor,
      findFieldName parents = (parents.findSome? containerYield).getD "") ∧
    (∀ (c : Ancestor) (lg : String), jsToLower c.tagName = "fieldset" →
      c.legend = some lg → containerYield c = some (jsTrim lg)) ∧
    (∀ (c : Ancestor) (t : String), containerYield c = some t →
      (jsToLower c.tagName = "fieldset" ∧ c.legend.isSome = true) ∨
      (t ∈ c.groupLabelTexts.map jsTrim ∧ ∀ r ∈ c.radios,
        jsIncludes t r.value = false ∧ jsIncludes t (closestLabelText r) = false)) := by
  refine ⟨?_, ?_, ?_, ?_⟩
  · intro doc ctx hg hr
    show (radioInfoOf doc ctx).map RadioButtonInfo.fieldName = _
    rw [radioInfoOf, if_pos hg]
    simp [fieldNameOf, hr]
  · intro parents
    induction parents with
    | nil => rfl
    | cons c rest ih =>
      by_cases hf : jsToLower c.tagName = "fieldset" ∧ c.legend.isSome
      · simp [findFieldName, containerYield, List.findSome?_cons, hf]
      · cases h : firstGroupLabel c with
        | none => simp [findFieldName, containerYield, List.findSome?_cons, hf, h, ih]
        | some t => simp [findFieldName, containerYield, List.findSome?_cons, hf, h]
  · intro c lg h1 h2
    rw [containerYield, if_pos ⟨h1, by rw [h2]; rfl⟩, h2]
    rfl
  · intro c t h
    by_cases hf : jsToLower c.tagName = "fieldset" ∧ c.legend.isSome
    · left; exact ⟨hf.1, hf.2⟩
    · right
      rw [containerYield, if_neg hf] at h
      obtain ⟨t0, ht0, hft⟩ := findSome?_some_spec _ c.groupLabelTexts t h
      by_cases hcond : jsTrim t0 ≠ "" ∧ 2 < strLen (jsTrim t0) ∧
          strLen (jsTrim t0) < 100 ∧ isGeneralLabel c (jsTrim t0) = true
      · have ht : t = jsTrim t0 := by
          have := hft
          rw [if_pos hcond] at this
          exact (Option.some.injEq _ _ ▸ this).symm
        constructor
        · rw [ht]; exact List.mem_map_of_mem jsTrim ht0
        · intro r hr
          have hgen := hcond.2.2.2
          rw [ht]
          rw [isGeneralLabel, Bool.not_eq_true'] at hgen
          have h1 := List.any_eq_false.mp hgen r hr
          have h2 : (jsIncludes (jsTrim t0) r.value ||
              jsIncludes (jsTrim t0) (closestLabelText r)) = false := by
            simpa using h1
          exact ⟨(Bool.or_eq_false_iff.mp h2).1, (Bool.or_eq_false_iff.mp h2).2⟩
      · rw [if_neg hcond] at hft
        exact absurd hft (by simp)

/-- An ancestor `<div>` containing the heading "Marital Status" and the two
radio options Married (value "married_v") / Single (value "single_v"), each
wrapped in a label. -/
def c5Anc : Ancestor :=
  { tagName := "DIV", textContent := "Marital Status Married Single"
    legend := none, groupLabelTexts := ["Marital Status"]
    radios := [{ value := "married_v", closestLabel := some "Married" },
               { value := "single_v", closestLabel := some "Single" }]
    fallbackRadios := [] }

/-- The interacted radio `<input type="radio" id="m1" name="marital">`. -/
def c5Ctx : ElemCtx :=
  { elem := { elem0 with
      tagName := "INPUT", typeAttr := "radio", id := "m1", name := "marital"
      value := "married_v" }
    parents := [c5Anc], nextSibs := [], prevSibs := [] }

/-- Document for the C5 witness. -/
def c5Doc : Doc :=
  { labels := [("m1", "Married")], elementsById := []
    radios := [{ id := "m1", name := "marital", value := "married_v", parent := none }] }

/-- Witness for `C5_fieldName_walk` at a concrete radio group. -/
theorem C5_witness :
    ((extractSemanticInfo c5Doc c5Ctx).radioButtonInfo).map RadioButtonInfo.fieldName =
      some (findFieldName c5Ctx.parents) ∧
    findFieldName c5Ctx.parents = "Marital Status" :=
  ⟨C5_fieldName_walk.1 c5Doc c5Ctx (by decide) (by decide), by decide⟩

/-! ## Claim C6: allOptions of a radio group -/

/-- Claim-side dedup keeping the first occurrence of each text: the head is
kept and all its later occurrences are filtered out of the rest. -/
def distinctFirst : List String → List String
  | [] => []
  | x :: xs => x :: (distinctFirst xs).filter (fun y => !(y == x))

theorem distinctFirst_nodup (l : List String) : (distinctFirst l).Nodup := by
  induction l with
  | nil => exact List.nodup_nil
  | cons x xs ih =>
    rw [distinctFirst]
    refine List.nodup_cons.mpr ⟨?_, ih.filter _⟩
    intro hmem
    have h := (List.mem_filter.mp hmem).2
    simp at h

theorem distinctFirst_mem (l : List String) (y : String) :
    y ∈ distinctFirst l ↔ y ∈ l := by
  induction l with
  | nil => rw [distinctFirst]
  | cons x xs ih =>
    rw [distinctFirst]
    constructor
    · intro h
      rcases List.mem_cons.mp h with h | h
      · exact h ▸ List.mem_cons_self _ _
      · exact List.mem_cons_of_mem _ (ih.mp (List.mem_of_mem_filter h))
    · intro h
      rcases List.mem_cons.mp h with h | h
      · exact h ▸ List.mem_cons_self _ _
      · by_cases hy : y = x
        · exact hy ▸ List.mem_cons_self _ _
        · refine List.mem_cons_of_mem _ (List.mem_filter.mpr ⟨ih.mpr h, ?_⟩)
          simp [hy]

theorem addOption_foldl (l : List String) :
    ∀ acc : List String,
      l.foldl addOption acc =
        acc ++ (distinctFirst (l.filter (fun t => !(t == "")))).filter
          (fun y => !(acc.contains y)) := by
  induction l with
  | nil => intro acc; simp [distinctFirst]
  | cons x xs ih =>
    intro acc
    rw [List.foldl_cons]
    by_cases hx : x = ""
    · subst hx
      have ha : addOption acc "" = acc := by simp [addOption]
      rw [ha, ih acc, List.filter_cons_of_neg (by simp)]
    · rw [List.filter_cons_of_pos (by simp [hx]), distinctFirst]
      by_cases hc : acc.contains x
      · have hmem : x ∈ acc := by simpa [List.contains] using hc
        have ha : addOption acc x = acc := by simp [addOption, hmem]
        rw [ha, ih acc, List.filter_cons_of_neg (by simp [hmem])]
        rw [List.filter_filter]
        congr 1
        refine List.filter_congr ?_
        intro y _
        by_cases hy : y = x
        · subst hy; simp [hmem]
        · simp [hy]
      · have hmem : x ∉ acc := by simpa [List.contains] using hc
        have ha : addOption acc x = acc ++ [x] := by
          rw [addOption, if_pos ⟨hx, eq_false_of_ne_true hc⟩]
        rw [ha, ih (acc ++ [x]),
          List.filter_cons_of_pos (by simp [hmem]), List.append_assoc,
          List.singleton_append, List.filter_filter]
        congr 2
        refine List.filter_congr ?_
        intro y _
        by_cases hy : y = x
        · subst hy; simp
        · simp [hy, List.elem_eq_mem, List.mem_append, Bool.and_comm]

/-- Claim C6 (confirmed): for a radio with a non-empty name, `allOptions` is
built from all same-name radios in document order, extracting each one's
option text (`label[for=id]`, else parent label, else value attribute); the
list keeps exactly the distinct non-empty option texts in order of first
occurrence, has no duplicates, and is the same regardless of which group
member was interacted with. -/
theorem C6_allOptions :
    (∀ (doc : Doc) (n : String),
      allOptionsFor doc n =
        distinctFirst (((doc.radios.filter (fun r => r.name == n)).map
          (radioOptionText doc)).filter (fun t => !(t == "")))) ∧
    (∀ (doc : Doc) (n : String), (allOptionsFor doc n).Nodup) ∧
    (∀ (doc : Doc) (n : String) (y : String),
      y ∈ allOptionsFor doc n ↔ (y ≠ "" ∧
        ∃ r ∈ doc.radios, r.name = n ∧ radioOptionText doc r = y)) ∧
    (∀ (doc : Doc) (ctx1 ctx2 : ElemCtx),
      isGroupedCtrl ctx1.elem = true → isGroupedCtrl ctx2.elem = true →
      ctx1.elem.name = ctx2.elem.name →
      jsToLower ctx1.elem.typeAttr = "radio" →
      jsToLower ctx2.elem.typeAttr = "radio" →
      ((extractSemanticInfo doc ctx1).radioButtonInfo).map RadioButtonInfo.allOptions =
        ((extractSemanticInfo doc ctx2).radioButtonInfo).map RadioButtonInfo.allOptions) := by
  have hmain : ∀ (doc : Doc) (n : String),
      allOptionsFor doc n =
        distinctFirst (((doc.radios.filter (fun r => r.name == n)).map
          (radioOptionText doc)).filter (fun t => !(t == ""))) := by
    intro doc n
    rw [allOptionsFor, ← List.foldl_map, addOption_foldl, List.nil_append]
    refine (List.filter_congr ?_).symm.trans (List.filter_true _)
    intro y _
    rfl
  refine ⟨hmain, ?_, ?_, ?_⟩
  · intro doc n
    rw [hmain]
    exact distinctFirst_nodup _
  · intro doc n y
    rw [hmain, distinctFirst_mem]
    simp only [List.mem_filter, List.mem_map, List.mem_filter]
    constructor
    · rintro ⟨⟨r, ⟨hr, hrn⟩, hry⟩, hy⟩
      refine ⟨by simpa using hy, r, hr, by simpa using hrn, hry⟩
    · rintro ⟨hy, r, hr, hrn, hry⟩
      exact ⟨⟨r, ⟨hr, by simpa using hrn⟩, hry⟩, by simpa using hy⟩
  · intro doc ctx1 ctx2 hg1 hg2 hnm hr1 hr2
    show (radioInfoOf doc ctx1).map _ = (radioInfoOf doc ctx2).map _
    rw [radioInfoOf, radioInfoOf, if_pos hg1, if_pos hg2]
    simp [allOptionsOfCtx, hr1, hr2, hnm]

/-- Two radios of the group `name="gender"`, each with a `label[for=id]`. -/
def c6Doc : Doc :=
  { labels := [("m", "Male"), ("f", "Female")], elementsById := []
    radios := [{ id := "m", name := "gender", value := "male", parent := none },
               { id := "f", name := "gender", value := "female", parent := none }] }

/-- The interacted radio `#m` of the gender group. -/
def c6Ctx1 : ElemCtx :=
  { elem := { elem0 with
      tagName := "INPUT", typeAttr := "radio", id := "m", name := "gender"
      value := "male" }
    parents := [], nextSibs := [], prevSibs := [] }

/-- The interacted radio `#f` of the gender group. -/
def c6Ctx2 : ElemCtx :=
  { elem := { elem0 with
      tagName := "INPUT", typeAttr := "radio", id := "f", name := "gender"
      value := "female" }
    parents := [], nextSibs := [], prevSibs := [] }

/-- Witness for `C6_allOptions`: both members of the gender group record the
same allOptions list, Male before Female in document order. -/
theorem C6_witness :
    ((extractSemanticInfo c6Doc c6Ctx1).radioButtonInfo).map RadioButtonInfo.allOptions =
      ((extractSemanticInfo c6Doc c6Ctx2).radioButtonInfo).map RadioButtonInfo.allOptions ∧
    ((extractSemanticInfo c6Doc c6Ctx1).radioButtonInfo).map RadioButtonInfo.allOptions =
      some ["Male", "Female"] :=
  ⟨C6_allOptions.2.2.2 c6Doc c6Ctx1 c6Ctx2 (by decide) (by decide) (by decide)
    (by decide) (by decide), by decide⟩

/-! ## Claim C8: over-cap texts - discard vs truncate -/

/-- A 300-character text. -/
def a300 : String := String.mk (List.replicate 300 'a')

/-- A `<div>` whose text content is 300 characters long. -/
def c8Ctx : ElemCtx :=
  { elem := { elem0 with tagName := "DIV", textContent := a300 }
    parents := [], nextSibs := [], prevSibs := [] }

set_option maxRecDepth 4000 in
/-- Claim C8 fails on the code: a 300-character text content does not yield
"no text" — `extractSemanticInfo` (line 520, `slice(0, 200)`) returns its
truncated 200-character prefix in the `textContent` field. -/
theorem C8_counterexample :
    strLen (jsTrim c8Ctx.elem.textContent) = 300 ∧
    (extractSemanticInfo emptyDoc c8Ctx).textContent =
      String.mk (List.replicate 200 'a') ∧
    (extractSemanticInfo emptyDoc c8Ctx).textContent ≠ "" := by
  refine ⟨by decide, by decide, by decide⟩

/-- Claim C8 (amended): label candidates over their caps are discarded whole —
e.g. the preceding-sibling stage either yields nothing or yields a complete
trimmed sibling text of 3..99 characters, never a truncated prefix — but the
`textContent` field is an exception: it is truncated to its first 200
characters rather than discarded, so an over-cap text content yields a
200-character prefix instead of no text. -/
theorem C8_cap_policy :
    (∀ (doc : Doc) (ctx : ElemCtx),
      (extractSemanticInfo doc ctx).textContent =
        strTake (jsTrim ctx.elem.textContent) 200) ∧
    (∀ sibs : List String, prevSiblingLabel sibs = "" ∨
      (prevSiblingLabel sibs ∈ sibs.map jsTrim ∧
        2 < strLen (prevSiblingLabel sibs) ∧
        strLen (prevSiblingLabel sibs) < 100)) := by
  constructor
  · intro doc ctx; rfl
  · intro sibs
    induction sibs with
    | nil => left; rfl
    | cons s rest ih =>
      by_cases hc : jsTrim s ≠ "" ∧ strLen (jsTrim s) < 100 ∧ 2 < strLen (jsTrim s)
      · right
        have hs : prevSiblingLabel (s :: rest) = jsTrim s := by
          simp [prevSiblingLabel, List.findSome?_cons, hc]
        rw [hs]
        exact ⟨List.mem_map_of_mem jsTrim (List.mem_cons_self s rest),
          hc.2.2, hc.2.1⟩
      · have hs : prevSiblingLabel (s :: rest) = prevSiblingLabel rest := by
          simp [prevSiblingLabel, List.findSome?_cons, hc]
        rw [hs]
        rcases ih with h | ⟨hm, h1, h2⟩
        · left; exact h
        · right
          exact ⟨by rw [List.map_cons]; exact List.mem_cons_of_mem _ hm, h1, h2⟩
